import Mathlib

/-!
Shallow embedding of the computational core of `src/app.py`
(Indian Property Insurance Underwriting Risk Analysis Tool).

Python floats are modelled as rationals (`ℚ`): every comparison and the
arithmetic appearing in the program (addition, subtraction, division by the
constants 100 and 40, multiplication by 60) is exact on the decimal literals
of the source, so the control flow of the embedded functions coincides with
the control flow of the Python functions on those inputs.

External collaborators (the `requests` HTTP client, `geopy.distance.geodesic`
and `numpy.random`) are modelled as explicit parameters: the HTTP exchange as
an `ElevOutcome` value describing what the transport returned, the geodesic
metric as an arbitrary distance function argument, and `numpy.random` as a
record of seeded generator operations threaded through an explicit state.
-/

set_option autoImplicit false

namespace App

/-! ### Flood risk classification (`classify_flood_risk`, app.py lines 28-36) -/

/-- Embedding of `classify_flood_risk`: `None` maps to `"Unknown"`, then the
thresholds `elevation < 5` / `elevation < 15` select the label. -/
def classify_flood_risk : Option ℚ → String
  | none => "Unknown"
  | some elevation =>
      if elevation < 5 then "High Flood Risk"
      else if elevation < 15 then "Medium Flood Risk"
      else "Low Flood Risk"

/-- Severity rank of the risk labels, `High > Medium > Low`, with the
`Unknown` label (and any other string) ranked 0.  Used to state ordinal
monotonicity of the classifier. -/
def severity (s : String) : ℕ :=
  if s = "High Flood Risk" then 3
  else if s = "Medium Flood Risk" then 2
  else if s = "Low Flood Risk" then 1
  else 0

/-! ### Urban flood zones (`flood_zones`, `point_in_bounds`,
`check_urban_flood_risk`, app.py lines 39-55) -/

/-- A named axis-aligned bounding box, `bounds = ((lat_min, lon_min),
(lat_max, lon_max))`, as in the `flood_zones` dictionaries. -/
structure FloodZone where
  name : String
  bounds : (ℚ × ℚ) × (ℚ × ℚ)

/-- The fixed five-entry zone list from app.py lines 39-45. -/
def flood_zones : List FloodZone :=
  [ ⟨"Mumbai Flood Zone", ((18.90, 72.75), (19.15, 72.95))⟩,
    ⟨"Chennai Flood Zone", ((13.00, 80.20), (13.15, 80.30))⟩,
    ⟨"Kolkata Flood Zone", ((22.45, 88.30), (22.60, 88.45))⟩,
    ⟨"Delhi Flood Zone", ((28.55, 77.15), (28.75, 77.35))⟩,
    ⟨"Bengaluru Flood Zone", ((12.90, 77.50), (13.05, 77.65))⟩ ]

/-- Embedding of `point_in_bounds`:
`lat_min <= lat <= lat_max and lon_min <= lon <= lon_max`. -/
def point_in_bounds (lat lon : ℚ) (bounds : (ℚ × ℚ) × (ℚ × ℚ)) : Bool :=
  decide (bounds.1.1 ≤ lat) && decide (lat ≤ bounds.2.1) &&
  decide (bounds.1.2 ≤ lon) && decide (lon ≤ bounds.2.2)

/-- The `for zone in flood_zones` loop of `check_urban_flood_risk`: return on
the first zone containing the point, else fall through. -/
def checkZones (lat lon : ℚ) : List FloodZone → String
  | [] => "Low Urban Flood Risk"
  | z :: zs =>
      if point_in_bounds lat lon z.bounds then
        "High Urban Flood Risk (" ++ z.name ++ ")"
      else checkZones lat lon zs

/-- Embedding of `check_urban_flood_risk` over the fixed zone list. -/
def check_urban_flood_risk (lat lon : ℚ) : String :=
  checkZones lat lon flood_zones

/-! ### Fire stations and response time (`fire_stations`,
`estimate_response_time`, app.py lines 58-80) -/

/-- A fire-station record, one row of the `fire_stations` data frame. -/
structure Station where
  name : String
  lat : ℚ
  lon : ℚ

/-- The fixed ten-entry station registry from app.py lines 58-69. -/
def fire_stations : List Station :=
  [ ⟨"Mumbai Fire Station 1", 19.015, 72.85⟩,
    ⟨"Mumbai Fire Station 2", 18.975, 72.81⟩,
    ⟨"Chennai Fire Station 1", 13.080, 80.275⟩,
    ⟨"Chennai Fire Station 2", 13.065, 80.250⟩,
    ⟨"Kolkata Fire Station 1", 22.57, 88.36⟩,
    ⟨"Kolkata Fire Station 2", 22.53, 88.38⟩,
    ⟨"Delhi Fire Station 1", 28.65, 77.20⟩,
    ⟨"Delhi Fire Station 2", 28.62, 77.22⟩,
    ⟨"Bengaluru Fire Station 1", 12.98, 77.58⟩,
    ⟨"Bengaluru Fire Station 2", 12.95, 77.60⟩ ]

/-- The per-station travel time `time_min = dist_km / 40 * 60` of app.py line
76, parameterised by the distance function (`geodesic(...).km` in the
source). -/
def stationTime (dist : ℚ × ℚ → ℚ × ℚ → ℚ) (q : ℚ × ℚ) (fs : Station) : ℚ :=
  dist q (fs.lat, fs.lon) / 40 * 60

/-- One iteration of the `for _, fs in fire_stations.iterrows()` loop of
`estimate_response_time`: update `(min_time, closest_station)` when
`min_time is None or time_min < min_time`. -/
def respStep (dist : ℚ × ℚ → ℚ × ℚ → ℚ) (q : ℚ × ℚ) :
    Option ℚ × Option String → Station → Option ℚ × Option String
  | (none, _), fs => (some (stationTime dist q fs), some fs.name)
  | (some m, nm), fs =>
      if stationTime dist q fs < m then (some (stationTime dist q fs), some fs.name)
      else (some m, nm)

/-- Round-half-to-even to an integer, the rounding mode of Python's built-in
`round` (here applied to exact rationals rather than binary floats). -/
def roundHalfEven (q : ℚ) : ℤ :=
  let f := ⌊q⌋
  if q - f < 1/2 then f
  else if q - f > 1/2 then f + 1
  else if f % 2 = 0 then f else f + 1

/-- Python's `round(x, 1)` modelled on rationals. -/
def pyRound1 (q : ℚ) : ℚ := (roundHalfEven (q * 10) : ℚ) / 10

/-- Embedding of `estimate_response_time`.  The final expression
`round(min_time, 1) if min_time else None` tests the *truthiness* of
`min_time`: both `None` and `0.0` are falsy in Python, which is captured by
the `m = 0` test below. -/
def estimate_response_time (dist : ℚ × ℚ → ℚ × ℚ → ℚ) (stations : List Station)
    (q : ℚ × ℚ) : Option String × Option ℚ :=
  let st := stations.foldl (respStep dist q) (none, none)
  (st.2,
    match st.1 with
    | none => none
    | some m => if m = 0 then none else some (pyRound1 m))

/-- Reference loop computing the station kept by `estimate_response_time`'s
fold once the accumulator holds a champion station: replace the champion
exactly when the candidate's time is strictly smaller. -/
def minLoop (dist : ℚ × ℚ → ℚ × ℚ → ℚ) (q : ℚ × ℚ) : Station → List Station → Station
  | acc, [] => acc
  | acc, t :: ts =>
      minLoop dist q (if stationTime dist q t < stationTime dist q acc then t else acc) ts

/-- Taxicab distance on coordinate pairs: a concrete stand-in for the geodesic
metric sharing the properties the theorems assume of it (non-negativity, and
vanishing on identical coordinates). -/
def distL1 (p r : ℚ × ℚ) : ℚ := |p.1 - r.1| + |p.2 - r.2|

/-! ### Exposure sampler (`generate_surrounding_exposure`, app.py lines
82-88) -/

/-- Interface of the `numpy.random` global generator as the program uses it:
`seed` resets the state from an integer, `rand g n` returns `n` uniform
samples in `[0, 1)` together with the successor state, `choice g labels n`
returns `n` draws from `labels` together with the successor state. -/
structure NpRandom (σ : Type) where
  seed : ℕ → σ
  rand : σ → ℕ → List ℚ × σ
  choice : σ → List String → ℕ → List String × σ

/-- The columnar result of `generate_surrounding_exposure` (a pandas
`DataFrame` with columns `lat`, `lon`, `risk`). -/
structure ExposureDF where
  lats : List ℚ
  lons : List ℚ
  risks : List String

/-- Embedding of `generate_surrounding_exposure`.  The ambient generator
state `g` is the global `numpy.random` state at call time; the function
discards it by calling `np.random.seed(42)` first, exactly as the source
does, and threads the reseeded state through the three draws. -/
def generate_surrounding_exposure {σ : Type} (R : NpRandom σ) (g : σ)
    (lat lon : ℚ) (num_points : ℕ) : ExposureDF × σ :=
  let g0 := R.seed 42
  let p1 := R.rand g0 num_points
  let lats := p1.1.map (fun x => lat + (x - 1/2) / 100)
  let p2 := R.rand p1.2 num_points
  let lons := p2.1.map (fun x => lon + (x - 1/2) / 100)
  let p3 := R.choice p2.2 ["Low", "Medium", "High"] num_points
  (⟨lats, lons, p3.1⟩, p3.2)

/-- A concrete (degenerate but lawful) instance of the `numpy.random`
interface, used to evaluate the sampler theorems on explicit inputs: every
uniform sample is `1/2` and every categorical draw is the first label. -/
def constRNG : NpRandom ℕ :=
  ⟨fun s => s,
   fun g n => ((List.range n).map (fun _ => mkRat 1 2), g + 1),
   fun g labels n => (List.replicate n (labels.headD ""), g + 1)⟩

/-! ### Elevation lookup (`get_elevation`, app.py lines 15-25) -/

/-- What the transport layer handed back for the single `requests.get`.
`json = none` models a body `r.json()` fails to parse; `json = some none`
models a JSON body with no `"results"` key (so `.get("results")` is `None`);
`json = some (some l)` models a `"results"` array whose entries are dicts,
each represented by its optional `"elevation"` value. -/
structure ElevResponse where
  status : ℕ
  json : Option (Option (List (Option ℚ)))

/-- Outcome of the HTTP exchange: either `requests.get` itself raised, or a
response came back. -/
inductive ElevOutcome where
  | transportError : String → ElevOutcome
  | ok : ElevResponse → ElevOutcome

/-- The body of `get_elevation`'s `try` block as a fallible computation:
`raise_for_status` raises on status codes in `[400, 600)`, JSON decoding can
raise, and otherwise `results[0].get("elevation")` (or `None` when `results`
is missing or empty) is produced. -/
def elevationBody : ElevOutcome → Except String (Option ℚ)
  | .transportError m => .error m
  | .ok resp =>
      if 400 ≤ resp.status ∧ resp.status < 600 then
        .error ("HTTP error " ++ toString resp.status)
      else
        match resp.json with
        | none => .error "invalid JSON body"
        | some none => .ok none
        | some (some []) => .ok none
        | some (some (e :: _)) => .ok e

/-- Embedding of `get_elevation`: the `except Exception` arm catches every
error from the body, shows a non-fatal `st.error` banner (the `Bool`
component) and falls through to `return None`. -/
def get_elevation (o : ElevOutcome) : Option ℚ × Bool :=
  match elevationBody o with
  | .ok v => (v, false)
  | .error _ => (none, true)

/-- Failure shapes enumerated by the spec for the elevation lookup: transport
failure, non-success HTTP status, unparsable body, missing or empty
`"results"`, or a first result without an `"elevation"` field. -/
def isElevFailure : ElevOutcome → Prop
  | .transportError _ => True
  | .ok resp =>
      (400 ≤ resp.status ∧ resp.status < 600) ∨
      resp.json = none ∨
      resp.json = some none ∨
      resp.json = some (some []) ∨
      ∃ rest, resp.json = some (some (none :: rest))

/-! ### PDF report (`create_pdf_report`, app.py lines 91-124) -/

/-- Left-pad a digit string with zeros to the given length. -/
def padZeros (s : String) (len : ℕ) : String :=
  String.mk (List.replicate (len - s.length) '0') ++ s

/-- Python's `:.6f` fixed-point format on rationals: round to six decimals
and print sign, integer part, point, and six digits. -/
def fmt6 (q : ℚ) : String :=
  let n := roundHalfEven (q * 1000000)
  let sign := if n < 0 then "-" else ""
  let a := n.natAbs
  sign ++ toString (a / 1000000) ++ "." ++ padZeros (toString (a % 1000000)) 6

/-- Interpolation of a present float value in an f-string.  Python's `repr`
of a binary float has no exact rational counterpart; the claims under proof
only inspect the absent branches, which are exact. -/
def ratStr (q : ℚ) : String := toString q

/-- Interpolation `f"{x}"` of an optional float: Python renders `None` as the
literal string `"None"`. -/
def optRatStr : Option ℚ → String
  | none => "None"
  | some v => ratStr v

/-- Interpolation `f"{x}"` of an optional string: `None` renders as
`"None"`. -/
def optStr : Option String → String
  | none => "None"
  | some s => s

/-- Embedding of `create_pdf_report` as the ordered list of text contents of
the PDF cells (title, the labelled scalar lines of app.py lines 99-104, the
table heading and column headers, then three cells per exposure row). -/
def create_pdf_report (lat lon : ℚ) (elevation : Option ℚ)
    (flood_risk urban_flood : String) (fire_station : Option String)
    (response_time : Option ℚ) (exposure_rows : List (ℚ × ℚ × String)) :
    List String :=
  [ "Property Insurance Underwriting Risk Analysis Report",
    "Location Coordinates: Latitude " ++ fmt6 lat ++ ", Longitude " ++ fmt6 lon,
    "Elevation: " ++ (match elevation with
      | some v => ratStr v
      | none => "N/A") ++ " meters",
    "Flood Risk (Elevation Based): " ++ flood_risk,
    "Urban Flood Risk Zone: " ++ urban_flood,
    "Nearest Fire Station: " ++ optStr fire_station,
    "Fire Brigade Response Time Estimate: " ++ optRatStr response_time ++ " minutes",
    "Nearby Properties Exposure Risk:",
    "Latitude", "Longitude", "Risk Level" ] ++
  exposure_rows.flatMap (fun row => [fmt6 row.1, fmt6 row.2.1, row.2.2])

/-! ## Theorems -/

/-- Unfolding of `checkZones` through `List.find?`: the loop returns the
first zone of the list containing the point, and the fallback string when no
zone does. -/
theorem checkZones_eq_find (lat lon : ℚ) : ∀ zs : List FloodZone,
    checkZones lat lon zs =
      (match zs.find? (fun z => point_in_bounds lat lon z.bounds) with
        | some z => "High Urban Flood Risk (" ++ z.name ++ ")"
        | none => "Low Urban Flood Risk")
  | [] => rfl
  | z :: zs => by
    by_cases h : point_in_bounds lat lon z.bounds
    · simp [checkZones, List.find?_cons, h]
    · simp only [checkZones, List.find?_cons, h, if_false, Bool.false_eq_true]
      rw [checkZones_eq_find lat lon zs]

/-- C3: the flood-risk classifier maps an absent elevation to `Unknown`, its
labels are characterised by the exact thresholds `e < 5` (High),
`5 ≤ e < 15` (Medium), `15 ≤ e` (Low), and the four boundary evaluations
`classify 4.999 = High`, `classify 5 = Medium`, `classify 14.999 = Medium`,
`classify 15 = Low` hold. -/
theorem classify_flood_risk_thresholds (e : ℚ) :
    classify_flood_risk none = "Unknown" ∧
    (classify_flood_risk (some e) = "High Flood Risk" ↔ e < 5) ∧
    (classify_flood_risk (some e) = "Medium Flood Risk" ↔ 5 ≤ e ∧ e < 15) ∧
    (classify_flood_risk (some e) = "Low Flood Risk" ↔ 15 ≤ e) ∧
    classify_flood_risk (some 4.999) = "High Flood Risk" ∧
    classify_flood_risk (some 5) = "Medium Flood Risk" ∧
    classify_flood_risk (some 14.999) = "Medium Flood Risk" ∧
    classify_flood_risk (some 15) = "Low Flood Risk" := by
  have hs : ∀ x : ℚ, classify_flood_risk (some x)
      = if x < 5 then "High Flood Risk"
        else if x < 15 then "Medium Flood Risk" else "Low Flood Risk" :=
    fun _ => rfl
  refine ⟨rfl, ?_, ?_, ?_, ?_, ?_, ?_, ?_⟩
  · rw [hs]
    by_cases h1 : e < 5
    · rw [if_pos h1]; exact iff_of_true rfl h1
    · by_cases h2 : e < 15
      · rw [if_neg h1, if_pos h2]; exact iff_of_false (by decide) h1
      · rw [if_neg h1, if_neg h2]; exact iff_of_false (by decide) h1
  · rw [hs]
    by_cases h1 : e < 5
    · rw [if_pos h1]
      exact iff_of_false (by decide) (fun hx => absurd h1 (not_lt.mpr hx.1))
    · by_cases h2 : e < 15
      · rw [if_neg h1, if_pos h2]; exact iff_of_true rfl ⟨not_lt.mp h1, h2⟩
      · rw [if_neg h1, if_neg h2]
        exact iff_of_false (by decide) (fun hx => absurd hx.2 h2)
  · rw [hs]
    by_cases h1 : e < 5
    · rw [if_pos h1]
      exact iff_of_false (by decide)
        (fun hx => absurd h1 (not_lt.mpr (le_trans (by norm_num) hx)))
    · by_cases h2 : e < 15
      · rw [if_neg h1, if_pos h2]
        exact iff_of_false (by decide) (fun hx => absurd h2 (not_lt.mpr hx))
      · rw [if_neg h1, if_neg h2]; exact iff_of_true rfl (not_lt.mp h2)
  · rw [hs, if_pos (by norm_num : (4.999 : ℚ) < 5)]
  · rw [hs, if_neg (by norm_num : ¬(5 : ℚ) < 5), if_pos (by norm_num : (5 : ℚ) < 15)]
  · rw [hs, if_neg (by norm_num : ¬(14.999 : ℚ) < 5),
      if_pos (by norm_num : (14.999 : ℚ) < 15)]
  · rw [hs, if_neg (by norm_num : ¬(15 : ℚ) < 5), if_neg (by norm_num : ¬(15 : ℚ) < 15)]

/-- C4: the classifier is total over `Option ℚ`, ordinal-monotonic on present
elevations (a larger elevation never gets a more severe label), and sends the
absent elevation to `Unknown`. -/
theorem classify_flood_risk_monotone (e1 e2 : ℚ) (h : e1 < e2) :
    severity (classify_flood_risk (some e2)) ≤ severity (classify_flood_risk (some e1)) ∧
    classify_flood_risk none = "Unknown" := by
  refine ⟨?_, rfl⟩
  simp only [classify_flood_risk]
  split_ifs <;> first | decide | linarith

/-- C4 witness: the monotonicity theorem instantiated at `e1 = 1 < 20 = e2`,
where the labels are High and Low. -/
theorem classify_flood_risk_monotone_wit :
    severity (classify_flood_risk (some 20)) ≤ severity (classify_flood_risk (some 1)) ∧
    classify_flood_risk none = "Unknown" :=
  classify_flood_risk_monotone 1 20 (by decide)

/-- C5: zone membership is the inclusive four-sided bounding-box test, the
scan over the fixed five-zone list returns the first matching zone (as the
`List.find?` characterisation states), `(19.0, 72.8)` falls in the Mumbai
Flood Zone, and `(20.0, 75.0)` matches no zone and yields
`"Low Urban Flood Risk"`. -/
theorem check_urban_flood_risk_spec (lat lon : ℚ) :
    (∀ latm lonm latM lonM,
        point_in_bounds lat lon ((latm, lonm), (latM, lonM)) = true ↔
          (latm ≤ lat ∧ lat ≤ latM ∧ lonm ≤ lon ∧ lon ≤ lonM)) ∧
    flood_zones.length = 5 ∧
    (check_urban_flood_risk lat lon =
      match flood_zones.find? (fun z => point_in_bounds lat lon z.bounds) with
        | some z => "High Urban Flood Risk (" ++ z.name ++ ")"
        | none => "Low Urban Flood Risk") ∧
    check_urban_flood_risk 19 72.8 = "High Urban Flood Risk (Mumbai Flood Zone)" ∧
    check_urban_flood_risk 20 75 = "Low Urban Flood Risk" := by
  refine ⟨?_, rfl, checkZones_eq_find lat lon flood_zones,
    by norm_num [check_urban_flood_risk, flood_zones, checkZones, point_in_bounds]; rfl,
    by norm_num [check_urban_flood_risk, flood_zones, checkZones, point_in_bounds]⟩
  intro latm lonm latM lonM
  simp [point_in_bounds, and_assoc]

/-- The taxicab stand-in distance is non-negative, as the geodesic distance
is. -/
theorem distL1_nonneg (p r : ℚ × ℚ) : 0 ≤ distL1 p r :=
  add_nonneg (abs_nonneg _) (abs_nonneg _)

/-- The taxicab stand-in distance vanishes on identical coordinates, as the
geodesic distance does. -/
theorem distL1_self (p : ℚ × ℚ) : distL1 p p = 0 := by
  simp [distL1]

/-- The response-time fold never displaces a champion whose time is a lower
bound of the remaining stations' times: the update condition
`time_min < min_time` is strict. -/
theorem foldl_respStep_keep (dist : ℚ × ℚ → ℚ × ℚ → ℚ) (q : ℚ × ℚ) :
    ∀ (l : List Station) (m : ℚ) (nm : String),
      (∀ fs ∈ l, m ≤ stationTime dist q fs) →
      List.foldl (respStep dist q) (some m, some nm) l = (some m, some nm)
  | [], _, _, _ => rfl
  | t :: ts, m, nm, h => by
    have h1 : ¬ stationTime dist q t < m := not_lt.mpr (h t (List.mem_cons_self t ts))
    rw [List.foldl_cons, show respStep dist q (some m, some nm) t = (some m, some nm) from
      by simp [respStep, h1]]
    exact foldl_respStep_keep dist q ts m nm (fun fs hfs => h fs (List.mem_cons_of_mem t hfs))

/-- Once the response-time fold holds a champion, it computes exactly the
station chosen by the reference loop `minLoop`. -/
theorem foldl_respStep_some (dist : ℚ × ℚ → ℚ × ℚ → ℚ) (q : ℚ × ℚ) :
    ∀ (l : List Station) (acc : Station),
      List.foldl (respStep dist q) (some (stationTime dist q acc), some acc.name) l
        = (some (stationTime dist q (minLoop dist q acc l)),
           some (minLoop dist q acc l).name)
  | [], _ => rfl
  | t :: ts, acc => by
    rw [List.foldl_cons]
    by_cases h : stationTime dist q t < stationTime dist q acc
    · rw [show respStep dist q (some (stationTime dist q acc), some acc.name) t
          = (some (stationTime dist q t), some t.name) from by simp [respStep, h]]
      rw [foldl_respStep_some dist q ts t]
      simp [minLoop, h]
    · rw [show respStep dist q (some (stationTime dist q acc), some acc.name) t
          = (some (stationTime dist q acc), some acc.name) from by simp [respStep, h]]
      rw [foldl_respStep_some dist q ts acc]
      simp [minLoop, h]

/-- The station kept by the reference loop is a first-encountered minimum:
it occurs in the scanned list, its time is a lower bound of all the times,
and every station scanned before it has a strictly larger time. -/
theorem minLoop_spec (dist : ℚ × ℚ → ℚ × ℚ → ℚ) (q : ℚ × ℚ) :
    ∀ (l : List Station) (acc : Station),
      ∃ l1 l2, acc :: l = l1 ++ minLoop dist q acc l :: l2 ∧
        (∀ y ∈ acc :: l,
          stationTime dist q (minLoop dist q acc l) ≤ stationTime dist q y) ∧
        (∀ y ∈ l1, stationTime dist q (minLoop dist q acc l) < stationTime dist q y)
  | [], acc => ⟨[], [], rfl, by simp [minLoop], by simp⟩
  | t :: ts, acc => by
    by_cases h : stationTime dist q t < stationTime dist q acc
    · obtain ⟨l1, l2, heq, hmin, hstrict⟩ := minLoop_spec dist q ts t
      have hm : minLoop dist q acc (t :: ts) = minLoop dist q t ts := by
        simp [minLoop, h]
      refine ⟨acc :: l1, l2, ?_, ?_, ?_⟩
      · rw [hm, List.cons_append, ← heq]
      · intro y hy
        rw [hm]
        rcases List.mem_cons.mp hy with rfl | hy2
        · exact le_trans (hmin t (List.mem_cons_self t ts)) (le_of_lt h)
        · exact hmin y hy2
      · intro y hy
        rw [hm]
        rcases List.mem_cons.mp hy with rfl | hy2
        · exact lt_of_le_of_lt (hmin t (List.mem_cons_self t ts)) h
        · exact hstrict y hy2
    · obtain ⟨l1, l2, heq, hmin, hstrict⟩ := minLoop_spec dist q ts acc
      have hm : minLoop dist q acc (t :: ts) = minLoop dist q acc ts := by
        simp [minLoop, h]
      have hle : stationTime dist q acc ≤ stationTime dist q t := not_lt.mp h
      cases l1 with
      | nil =>
        rw [List.nil_append] at heq
        injection heq with hacc hrest
        refine ⟨[], t :: ts, ?_, ?_, ?_⟩
        · rw [hm, ← hacc, List.nil_append]
        · intro y hy
          rw [hm, ← hacc]
          rcases List.mem_cons.mp hy with rfl | hy2
          · exact le_refl _
          rcases List.mem_cons.mp hy2 with rfl | hy3
          · exact hle
          · have h4 := hmin y (List.mem_cons_of_mem acc hy3)
            rwa [← hacc] at h4
        · intro y hy
          exact absurd hy (List.not_mem_nil y)
      | cons a l1t =>
        rw [List.cons_append] at heq
        injection heq with hacc hrest
        refine ⟨acc :: t :: l1t, l2, ?_, ?_, ?_⟩
        · rw [hm, List.cons_append, List.cons_append, ← hrest]
        · intro y hy
          rw [hm]
          rcases List.mem_cons.mp hy with rfl | hy2
          · exact hmin y (List.mem_cons_self y ts)
          rcases List.mem_cons.mp hy2 with rfl | hy3
          · refine le_of_lt (lt_of_lt_of_le (hstrict a (List.mem_cons_self a l1t)) ?_)
            rw [← hacc]; exact hle
          · exact hmin y (List.mem_cons_of_mem acc hy3)
        · intro y hy
          rw [hm]
          rcases List.mem_cons.mp hy with rfl | hy2
          · have h5 := hstrict a (List.mem_cons_self a l1t)
            rwa [← hacc] at h5
          rcases List.mem_cons.mp hy2 with rfl | hy3
          · refine lt_of_lt_of_le (hstrict a (List.mem_cons_self a l1t)) ?_
            rw [← hacc]; exact hle
          · exact hstrict y (List.mem_cons_of_mem a hy3)

/-- C6: on any non-empty registry, `estimate_response_time` names the station
that is a first-encountered minimum of the travel times: its time is minimal,
and every station earlier in registry order has a strictly larger time — so
equidistant ties go to the earliest station, by a stable scan rather than a
re-sort.  Determinism across repeated calls is inherent: the embedded
function is pure. -/
theorem estimate_response_time_first_min (dist : ℚ × ℚ → ℚ × ℚ → ℚ) (q : ℚ × ℚ)
    (s : Station) (rest : List Station) :
    ∃ l1 fs l2, s :: rest = l1 ++ fs :: l2 ∧
      (estimate_response_time dist (s :: rest) q).1 = some fs.name ∧
      (∀ y ∈ s :: rest, stationTime dist q fs ≤ stationTime dist q y) ∧
      (∀ y ∈ l1, stationTime dist q fs < stationTime dist q y) := by
  obtain ⟨l1, l2, heq, hmin, hstrict⟩ := minLoop_spec dist q rest s
  refine ⟨l1, minLoop dist q s rest, l2, heq, ?_, hmin, hstrict⟩
  have hfold : List.foldl (respStep dist q) ((none : Option ℚ), (none : Option String))
      (s :: rest)
      = (some (stationTime dist q (minLoop dist q s rest)),
         some (minLoop dist q s rest).name) := by
    rw [List.foldl_cons,
      show respStep dist q (none, none) s = (some (stationTime dist q s), some s.name)
        from rfl]
    exact foldl_respStep_some dist q rest s
  simp [estimate_response_time, hfold]

/-- C1 (refuting the claim on the code): at the exact coordinates of the
first registry entry, Mumbai Fire Station 1, the minimal travel time is `0.0`,
and the expression `round(min_time, 1) if min_time else None` treats `0.0` as
falsy — so the function returns an absent ETA even though the registry is the
full ten-entry one.  The hypotheses state the two facts used about the
geodesic metric: it is non-negative, and it vanishes on identical
coordinates. -/
theorem estimate_response_time_zero_eta (dist : ℚ × ℚ → ℚ × ℚ → ℚ)
    (hnn : ∀ fs ∈ fire_stations, 0 ≤ dist (19.015, 72.85) (fs.lat, fs.lon))
    (h0 : dist (19.015, 72.85) (19.015, 72.85) = 0) :
    estimate_response_time dist fire_stations (19.015, 72.85)
      = (some "Mumbai Fire Station 1", none) := by
  have htime : ∀ fs ∈ fire_stations.tail, 0 ≤ stationTime dist (19.015, 72.85) fs := by
    intro fs hfs
    have hd := hnn fs (List.mem_cons_of_mem _ hfs)
    have h40 : (0 : ℚ) ≤ dist (19.015, 72.85) (fs.lat, fs.lon) / 40 :=
      div_nonneg hd (by norm_num)
    exact mul_nonneg h40 (by norm_num)
  have hs1 : stationTime dist (19.015, 72.85) ⟨"Mumbai Fire Station 1", 19.015, 72.85⟩
      = 0 := by
    simp [stationTime, h0]
  have hfold : List.foldl (respStep dist (19.015, 72.85))
      ((none : Option ℚ), (none : Option String)) fire_stations
      = (some 0, some "Mumbai Fire Station 1") := by
    rw [show fire_stations
        = (⟨"Mumbai Fire Station 1", 19.015, 72.85⟩ : Station) :: fire_stations.tail
      from rfl]
    rw [List.foldl_cons,
      show respStep dist (19.015, 72.85) (none, none)
          (⟨"Mumbai Fire Station 1", 19.015, 72.85⟩ : Station)
        = (some 0, some "Mumbai Fire Station 1") from by rw [respStep, hs1]]
    exact foldl_respStep_keep dist (19.015, 72.85) fire_stations.tail 0
      "Mumbai Fire Station 1" htime
  simp [estimate_response_time, hfold]

/-- C1 witness: the refutation evaluated with the taxicab stand-in for the
geodesic metric, which satisfies both hypotheses. -/
theorem estimate_response_time_zero_eta_wit :
    estimate_response_time distL1 fire_stations (19.015, 72.85)
      = (some "Mumbai Fire Station 1", none) :=
  estimate_response_time_zero_eta distL1
    (fun fs _ => distL1_nonneg (19.015, 72.85) (fs.lat, fs.lon))
    (distL1_self (19.015, 72.85))

/-- C7: the exposure sampler is deterministic — two calls with identical
center, count and generator interface produce identical outputs (coordinates,
risk labels, and even the final generator state), whatever the ambient
generator states at the two call sites are, because `np.random.seed(42)`
discards the ambient state on every call. -/
theorem generate_surrounding_exposure_deterministic {σ : Type} (R : NpRandom σ)
    (g1 g2 : σ) (lat lon : ℚ) (n : ℕ) :
    generate_surrounding_exposure R g1 lat lon n
      = generate_surrounding_exposure R g2 lat lon n := rfl

/-- C8: provided the generator interface honours `numpy`'s contract on the
three draws the call makes (`rand` returns the requested number of samples,
all in `[0, 1)`, and `choice` returns the requested number of labels), the
sampler returns exactly `num_points` entries in every column, and every
generated coordinate is within `0.005` degrees of the center on each axis. -/
theorem generate_surrounding_exposure_count_bounds {σ : Type} (R : NpRandom σ)
    (g : σ) (lat lon : ℚ) (n : ℕ)
    (h1 : (R.rand (R.seed 42) n).1.length = n ∧
      ∀ u ∈ (R.rand (R.seed 42) n).1, 0 ≤ u ∧ u < 1)
    (h2 : (R.rand (R.rand (R.seed 42) n).2 n).1.length = n ∧
      ∀ u ∈ (R.rand (R.rand (R.seed 42) n).2 n).1, 0 ≤ u ∧ u < 1)
    (h3 : (R.choice (R.rand (R.rand (R.seed 42) n).2 n).2 ["Low", "Medium", "High"] n).1.length
      = n) :
    (generate_surrounding_exposure R g lat lon n).1.lats.length = n ∧
    (generate_surrounding_exposure R g lat lon n).1.lons.length = n ∧
    (generate_surrounding_exposure R g lat lon n).1.risks.length = n ∧
    (∀ x ∈ (generate_surrounding_exposure R g lat lon n).1.lats, |x - lat| ≤ 5/1000) ∧
    (∀ y ∈ (generate_surrounding_exposure R g lat lon n).1.lons, |y - lon| ≤ 5/1000) := by
  refine ⟨?_, ?_, ?_, ?_, ?_⟩
  · simpa [generate_surrounding_exposure] using h1.1
  · simpa [generate_surrounding_exposure] using h2.1
  · simpa [generate_surrounding_exposure] using h3
  · intro x hx
    simp only [generate_surrounding_exposure, List.mem_map] at hx
    obtain ⟨u, hu, rfl⟩ := hx
    obtain ⟨hu0, hu1⟩ := h1.2 u hu
    rw [abs_le]
    constructor <;> linarith
  · intro y hy
    simp only [generate_surrounding_exposure, List.mem_map] at hy
    obtain ⟨u, hu, rfl⟩ := hy
    obtain ⟨hu0, hu1⟩ := h2.2 u hu
    rw [abs_le]
    constructor <;> linarith

/-- C8 witness: the count-and-bounds theorem evaluated on the concrete
generator instance at `count = 5` and center `(19, 72)`. -/
theorem generate_surrounding_exposure_count_bounds_wit :
    (generate_surrounding_exposure constRNG 0 19 72 5).1.lats.length = 5 :=
  (generate_surrounding_exposure_count_bounds constRNG 0 19 72 5
    (by decide) (by decide) (by decide)).1

/-- C10 (implicit): the sampler's output is translation-invariant in the
center — the per-point offset sequences and the risk-label sequence are the
same for any two centers, because the generator is reseeded with the constant
42 on every call and no draw depends on the coordinate. -/
theorem generate_surrounding_exposure_translation_inv {σ : Type} (R : NpRandom σ)
    (g : σ) (lat1 lon1 lat2 lon2 : ℚ) (n : ℕ) :
    (generate_surrounding_exposure R g lat1 lon1 n).1.lats.map (fun x => x - lat1)
      = (generate_surrounding_exposure R g lat2 lon2 n).1.lats.map (fun x => x - lat2) ∧
    (generate_surrounding_exposure R g lat1 lon1 n).1.lons.map (fun x => x - lon1)
      = (generate_surrounding_exposure R g lat2 lon2 n).1.lons.map (fun x => x - lon2) ∧
    (generate_surrounding_exposure R g lat1 lon1 n).1.risks
      = (generate_surrounding_exposure R g lat2 lon2 n).1.risks := by
  refine ⟨?_, ?_, rfl⟩ <;>
    · simp only [generate_surrounding_exposure, List.map_map]
      congr 1
      funext u
      simp only [Function.comp]
      ring

/-- C9: every failure shape of the elevation lookup — transport error,
non-success HTTP status, unparsable body, missing or empty `results`, or a
first result without an `elevation` field — yields the absent value `none`,
and every exception raised inside the `try` block is caught and surfaced only
as the non-fatal warning banner, never re-raised. -/
theorem get_elevation_failure_absent (o : ElevOutcome) (h : isElevFailure o) :
    (get_elevation o).1 = none ∧
    ∀ m, elevationBody o = Except.error m → get_elevation o = (none, true) := by
  constructor
  · match o with
    | .transportError m => rfl
    | .ok resp =>
      rcases h with hst | hj | hj | hj | ⟨rest, hj⟩
      · simp [get_elevation, elevationBody, hst]
      all_goals by_cases hc : 400 ≤ resp.status ∧ resp.status < 600 <;>
        simp [get_elevation, elevationBody, hj, hc]
  · intro m hm
    simp [get_elevation, hm]

/-- C9 witness: the failure theorem evaluated at a transport error. -/
theorem get_elevation_failure_absent_wit :
    (get_elevation (ElevOutcome.transportError "connection refused")).1 = none :=
  (get_elevation_failure_absent (ElevOutcome.transportError "connection refused")
    trivial).1

/-- C2 (refuting the claim on the code): with both the elevation and the
response time absent, the rendered report's elevation line is the literal
`"Elevation: N/A meters"`, but its response-time line is
`"Fire Brigade Response Time Estimate: None minutes"` — the f-string at
app.py line 104 has no `"N/A"` fallback, so Python renders `None` — and the
two strings differ from the `"N/A"` form the claim requires. -/
theorem create_pdf_report_absent_fields :
    (create_pdf_report 19 72 none "Unknown" "Low Urban Flood Risk"
        (some "Mumbai Fire Station 1") none [])[2]?
      = some "Elevation: N/A meters" ∧
    (create_pdf_report 19 72 none "Unknown" "Low Urban Flood Risk"
        (some "Mumbai Fire Station 1") none [])[6]?
      = some "Fire Brigade Response Time Estimate: None minutes" ∧
    ("Fire Brigade Response Time Estimate: None minutes"
      ≠ "Fire Brigade Response Time Estimate: N/A minutes") := by
  refine ⟨rfl, rfl, by decide⟩

end App
